import Mathlib

/-!
Verification development for the sway monitor daemon
(`sway_monitor_daemon.py`).

The daemon keeps a multi-monitor layout synchronized with hot-plug events:
it persists named profiles (mappings from monitor identifier to an output
configuration), matches connected outputs against those profiles, and
re-applies the best-matching configuration whenever the set of connected
outputs changes.

The embedding below mirrors the Python source:
* Python `dict`s become association lists with first-key lookup and
  in-place-replacing insertion (`dictLookup` / `dictInsert`), matching
  `dict` semantics for the states reachable in the program (unique keys,
  insertion order preserved).
* uncaught Python exceptions become `Except PyErr`; an exception the code
  catches is handled exactly where the corresponding `try` block sits.
* the external world (the `swaymsg` subprocess results and the filesystem
  under the profiles directory) is passed explicitly (`Env`, `FS`).
* JSON (de)serialization of a profile's config mapping is modelled by the
  `FileData` type: `parsed cfgs` is a file whose contents parse to the
  mapping `cfgs`, `malformed` is a file on which `json.load` raises.
  `json.dump` followed by `json.load` round-trips the scalar field values
  used here (strings, booleans, and exactly representable numbers such as
  `1.0`), so writing a mapping stores it as `parsed`.
-/

/-- Exceptions that can escape the modelled operations. -/
inductive PyErr
  | keyError
  | jsonDecodeError
  | valueError
deriving DecidableEq, Repr

/-- One connected output as reported by `swaymsg -t get_outputs`.

Fields the daemon reads unconditionally (`monitor['name']`,
`monitor['rect']`, `monitor['current_mode']`) are required; fields it reads
through `dict.get` with a default (`model`, `serial`, `scale`, `transform`,
`disabled`) are `Option`s, `none` standing for an absent key. `scale` is a
JSON number, represented exactly as a rational. -/
structure Monitor where
  name : String
  model : Option String
  serial : Option String
  rect_x : Int
  rect_y : Int
  mode_w : Nat
  mode_h : Nat
  scale : Option Rat
  transform : Option String
  disabled : Option Bool
deriving DecidableEq, Repr

/-- A stored output configuration, with exactly the fields
`save_current_setup` writes and `apply_monitor_config` reads. -/
structure Config where
  model : String
  position : String
  resolution : String
  scale : Rat
  transform : String
  enabled : Bool
deriving DecidableEq, Repr

/-- Python `dict` lookup (`d[k]` / `k in d`): the binding of the first
matching key. -/
def dictLookup {α : Type} (l : List (String × α)) (k : String) : Option α :=
  match l with
  | [] => none
  | (k', v) :: rest => if k' = k then some v else dictLookup rest k

/-- Python `dict` assignment `d[k] = v`: replaces the existing binding in
place, or appends a new one. -/
def dictInsert {α : Type} (l : List (String × α)) (k : String) (v : α) :
    List (String × α) :=
  match l with
  | [] => [(k, v)]
  | (k', v') :: rest =>
    if k' = k then (k, v) :: rest else (k', v') :: dictInsert rest k v

/-- `class MonitorProfile`: a named mapping from identifier to config. -/
structure MonitorProfile where
  name : String
  configs : List (String × Config)
deriving DecidableEq, Repr

/-- Contents of one file in the profiles directory, as seen by
`json.load`. -/
inductive FileData
  | malformed
  | parsed (configs : List (String × Config))
deriving DecidableEq, Repr

/-- The profiles directory: `stem -> contents of "<stem>.json"`, plus the
`active_profile` marker file (`none` when absent). -/
structure FS where
  profileFiles : List (String × FileData)
  activeProfileFile : Option String
deriving DecidableEq, Repr

def DEFAULT_PROFILE : String := "default"

/-- Daemon state: `self.profiles`, `self.active_profile_name`,
`self.current_monitors` (a Python `set` of output names). -/
structure MonitorDaemon where
  profiles : List (String × MonitorProfile)
  active_profile_name : String
  current_monitors : Finset String
deriving DecidableEq

/-- Outcome of one `swaymsg -t get_outputs` invocation: non-zero exit
(`subprocess.CalledProcessError`), or exit 0 with stdout that either fails
JSON parsing (`exitZero none`) or parses to a monitor list. -/
inductive QueryOutcome
  | nonzeroExit
  | exitZero (parsed : Option (List Monitor))

/-- The external world: the current query outcome and, for each apply
command line, whether `subprocess.run(cmd, check=True)` exits zero. -/
structure Env where
  query : QueryOutcome
  applyOk : List String → Bool

/-- Python `str.strip()`: drop whitespace from both ends. -/
def pyStrip (s : String) : String :=
  ⟨((s.data.dropWhile Char.isWhitespace).reverse.dropWhile Char.isWhitespace).reverse⟩

/-- `MonitorProfile.load`: read `<name>.json` if it exists (raising
`json.JSONDecodeError` on malformed contents), else an empty profile. -/
def MonitorProfile.load (fs : FS) (name : String) :
    Except PyErr MonitorProfile :=
  match dictLookup fs.profileFiles name with
  | some FileData.malformed => Except.error PyErr.jsonDecodeError
  | some (FileData.parsed cfgs) => Except.ok ⟨name, cfgs⟩
  | none => Except.ok ⟨name, []⟩

/-- The `for profile_file in PROFILES_PATH.glob('*.json')` loop of
`load_profiles`: load each stem and store it under `self.profiles`. -/
def loadLoop (fs : FS) :
    List String → List (String × MonitorProfile) →
    Except PyErr (List (String × MonitorProfile))
  | [], acc => Except.ok acc
  | stem :: rest, acc =>
    match MonitorProfile.load fs stem with
    | Except.error e => Except.error e
    | Except.ok p => loadLoop fs rest (dictInsert acc stem p)

/-- `MonitorDaemon.load_profiles`: load every profile file, ensure the
default profile exists, then read the active-profile marker
(`f.read().strip()`). -/
def load_profiles (fs : FS) (d : MonitorDaemon) : Except PyErr MonitorDaemon :=
  match loadLoop fs (fs.profileFiles.map Prod.fst) d.profiles with
  | Except.error e => Except.error e
  | Except.ok profiles =>
    let profiles :=
      if (dictLookup profiles DEFAULT_PROFILE).isSome then profiles
      else dictInsert profiles DEFAULT_PROFILE ⟨DEFAULT_PROFILE, []⟩
    let active :=
      match fs.activeProfileFile with
      | some s => pyStrip s
      | none => d.active_profile_name
    Except.ok { d with profiles := profiles, active_profile_name := active }

/-- `MonitorDaemon.get_current_monitors`: the `try` block catches only
`subprocess.CalledProcessError` (returning `[]`); a `json.loads` failure on
exit-0 output is not caught and propagates. -/
def get_current_monitors (q : QueryOutcome) : Except PyErr (List Monitor) :=
  match q with
  | QueryOutcome.nonzeroExit => Except.ok []
  | QueryOutcome.exitZero none => Except.error PyErr.jsonDecodeError
  | QueryOutcome.exitZero (some ms) => Except.ok ms

/-- The three identifiers tried for a monitor, in precedence order:
`f"{model}_{serial}"`, `model`, `name`, with `monitor.get(k, '')`
defaults. -/
def identifiers (m : Monitor) : List String :=
  [m.model.getD "" ++ "_" ++ m.serial.getD "", m.model.getD "", m.name]

/-- The inner `for identifier in [...]` loop of `find_best_config`: first
identifier present in the profile's config mapping wins. -/
def tryIdentifiers (p : MonitorProfile) : List String → Option Config
  | [] => none
  | id :: rest =>
    match dictLookup p.configs id with
    | some c => some c
    | none => tryIdentifiers p rest

/-- The outer `for profile in self.profiles.values()` loop of
`find_best_config`: first profile holding one of the identifiers wins. -/
def profilesSearch (ids : List String) : List MonitorProfile → Option Config
  | [] => none
  | p :: rest =>
    match tryIdentifiers p ids with
    | some c => some c
    | none => profilesSearch ids rest

/-- `MonitorDaemon.find_best_config`: look in the active profile first
(the bare `self.profiles[self.active_profile_name]` access raises
`KeyError` when the active name has no loaded profile), then scan every
profile in `self.profiles.values()` order with the same identifiers. -/
def find_best_config (d : MonitorDaemon) (m : Monitor) :
    Except PyErr (Option Config) :=
  match dictLookup d.profiles d.active_profile_name with
  | none => Except.error PyErr.keyError
  | some active =>
    match tryIdentifiers active (identifiers m) with
    | some c => Except.ok (some c)
    | none =>
      Except.ok (profilesSearch (identifiers m) (d.profiles.map Prod.snd))

/-- Helper for `pySplit`: walk the characters, cutting at the
separator. -/
def pySplitAux (sep : Char) : List Char → List Char → List String
  | [], acc => [⟨acc.reverse⟩]
  | c :: rest, acc =>
    if c = sep then ⟨acc.reverse⟩ :: pySplitAux sep rest []
    else pySplitAux sep rest (c :: acc)

/-- Python `str.split(sep)` for the one-character separators the daemon
uses (`'x'` and `','`). -/
def pySplit (s : String) (sep : Char) : List String :=
  pySplitAux sep s.data []

/-- The command line `apply_monitor_config` builds for a well-formed
config: `swaymsg output <name> pos x y res w h scale s transform t`, or
`swaymsg output <name> disable`. -/
def buildCmd (m : Monitor) (c : Config) : List String :=
  if c.enabled then
    ["swaymsg", "output", m.name, "pos"] ++ pySplit c.position ',' ++
      ["res"] ++ pySplit c.resolution 'x' ++
      ["scale", toString c.scale, "transform", c.transform]
  else
    ["swaymsg", "output", m.name, "disable"]

/-- `MonitorDaemon.apply_monitor_config`: when enabled, the tuple
unpackings `width, height = config['resolution'].split('x')` and
`x, y = config['position'].split(',')` raise `ValueError` unless each split
yields exactly two parts; the `try` block around `subprocess.run` turns a
non-zero exit into `False`, success into `True`. -/
def apply_monitor_config (env : Env) (m : Monitor) (c : Config) :
    Except PyErr Bool :=
  if c.enabled then
    match pySplit c.resolution 'x', pySplit c.position ',' with
    | [w, h], [x, y] =>
      Except.ok (env.applyOk
        (["swaymsg", "output", m.name, "pos", x, y, "res", w, h,
          "scale", toString c.scale, "transform", c.transform]))
    | _, _ => Except.error PyErr.valueError
  else
    Except.ok (env.applyOk ["swaymsg", "output", m.name, "disable"])

/-- The `for monitor in monitors` loop of `update_monitor_configs`:
apply the best config where one exists (collecting, in order, each
invoked output's name with its success flag), warn-and-skip otherwise. -/
def applyLoop (env : Env) (d : MonitorDaemon) :
    List Monitor → Except PyErr (List (String × Bool))
  | [] => Except.ok []
  | m :: rest =>
    match find_best_config d m with
    | Except.error e => Except.error e
    | Except.ok none => applyLoop env d rest
    | Except.ok (some c) =>
      match apply_monitor_config env m c with
      | Except.error e => Except.error e
      | Except.ok ok =>
        match applyLoop env d rest with
        | Except.error e => Except.error e
        | Except.ok calls => Except.ok ((m.name, ok) :: calls)

/-- `{m['name'] for m in monitors}`. -/
def outputNameSet (ms : List Monitor) : Finset String :=
  (ms.map Monitor.name).toFinset

/-- `MonitorDaemon.update_monitor_configs`: query the outputs; when the
name-set is unchanged do nothing, otherwise apply configurations and then
replace `self.current_monitors`. Returns the new state together with the
trace of `applyConfig` invocations. -/
def update_monitor_configs (env : Env) (d : MonitorDaemon) :
    Except PyErr (MonitorDaemon × List (String × Bool)) :=
  match get_current_monitors env.query with
  | Except.error e => Except.error e
  | Except.ok monitors =>
    let newSet := outputNameSet monitors
    if newSet = d.current_monitors then Except.ok (d, [])
    else
      match applyLoop env d monitors with
      | Except.error e => Except.error e
      | Except.ok calls =>
        Except.ok ({ d with current_monitors := newSet }, calls)

/-- The config dict `save_current_setup` captures for one monitor. -/
def captureConfig (m : Monitor) (model : String) : Config :=
  { model := model
    position := toString m.rect_x ++ "," ++ toString m.rect_y
    resolution := toString m.mode_w ++ "x" ++ toString m.mode_h
    scale := m.scale.getD 1
    transform := m.transform.getD "normal"
    enabled := !(m.disabled.getD false) }

/-- The `if monitor.get('serial'):` step of the save loop: additionally
store the captured config under `f"{model}_{serial}"` when the serial is
truthy (present and non-empty). -/
def serialInsert (cfgs : List (String × Config)) (m : Monitor) (c : Config) :
    List (String × Config) :=
  match m.serial with
  | some s =>
    if s = "" then cfgs
    else dictInsert cfgs (m.model.getD "" ++ "_" ++ s) c
  | none => cfgs

/-- The `for monitor in monitors` loop of `save_current_setup`: skip
empty-model outputs (`if not model: continue`), store the captured config
under the bare model key, then under the model+serial key when the serial
is truthy. -/
def saveLoop (cfgs : List (String × Config)) :
    List Monitor → List (String × Config)
  | [] => cfgs
  | m :: rest =>
    if m.model.getD "" = "" then saveLoop cfgs rest
    else
      saveLoop
        (serialInsert
          (dictInsert cfgs (m.model.getD "") (captureConfig m (m.model.getD "")))
          m (captureConfig m (m.model.getD "")))
        rest

/-- `MonitorProfile.save`: serialize the config mapping to the profile's
file (the net filesystem effect; the write is in place, see the
`save_observable` model below). -/
def MonitorProfile.save (fs : FS) (p : MonitorProfile) : FS :=
  { fs with profileFiles := dictInsert fs.profileFiles p.name (FileData.parsed p.configs) }

/-- `MonitorDaemon.save_active_profile`: write the marker file. -/
def save_active_profile (fs : FS) (d : MonitorDaemon) : FS :=
  { fs with activeProfileFile := some d.active_profile_name }

/-- The `if profile_name:` step at the top of `save_current_setup`: switch
the active profile, except for falsy names (`None` or `""`). -/
def switchProfile (d : MonitorDaemon) (profile_name : Option String) :
    MonitorDaemon :=
  match profile_name with
  | some n => if n = "" then d else { d with active_profile_name := n }
  | none => d

/-- The `self.profiles.get(...)`-or-create step of `save_current_setup`:
the loaded active profile if present, else a fresh empty one. -/
def activeOrFresh (d : MonitorDaemon) : MonitorProfile :=
  match dictLookup d.profiles d.active_profile_name with
  | some p => p
  | none => MonitorProfile.mk d.active_profile_name []

/-- `MonitorDaemon.save_current_setup`: optionally switch the active
profile (via `switchProfile`), snapshot the current outputs into the
active profile, persist the profile file and the active-profile marker.
The query outcome is matched first; switching the active name and querying
commute, as neither reads what the other writes. -/
def save_current_setup (env : Env) (fs : FS) (d : MonitorDaemon)
    (profile_name : Option String) : Except PyErr (MonitorDaemon × FS) :=
  match get_current_monitors env.query with
  | Except.error e => Except.error e
  | Except.ok monitors =>
    let d2 := switchProfile d profile_name
    let p := { activeOrFresh d2 with
      configs := saveLoop (activeOrFresh d2).configs monitors }
    let d3 := { d2 with
      profiles := dictInsert d2.profiles d2.active_profile_name p }
    Except.ok (d3, save_active_profile (MonitorProfile.save fs p) d3)

/-- Observable write steps of `MonitorProfile.save`:
`open(self.file_path, 'w')` truncates the file immediately, then
`json.dump` writes the new contents into it. -/
inductive WriteStep
  | openTruncate
  | writeAll (data : FileData)
deriving DecidableEq, Repr

/-- The steps `MonitorProfile.save` performs on the profile's file. -/
def save_write_steps (p : MonitorProfile) : List WriteStep :=
  [WriteStep.openTruncate, WriteStep.writeAll (FileData.parsed p.configs)]

/-- File contents after one write step: a truncated (or partially
written) file does not parse as JSON. -/
def stepContent (_cur : FileData) (s : WriteStep) : FileData :=
  match s with
  | WriteStep.openTruncate => FileData.malformed
  | WriteStep.writeAll data => data

/-- Every file content a concurrent reader can observe while the given
write steps run, starting from the old contents. -/
def contentsDuring (old : FileData) : List WriteStep → List FileData
  | [] => [old]
  | s :: rest => old :: contentsDuring (stepContent old s) rest

/-- Contents observable by a concurrent reader of the profile file during
`MonitorProfile.save`. -/
def save_observable (old : FileData) (p : MonitorProfile) : List FileData :=
  contentsDuring old (save_write_steps p)

/-! ## Dictionary lemmas -/

/-- Decidable equality on results, used to evaluate the operations on
concrete inputs. -/
def exceptDecEq {ε α : Type} [DecidableEq ε] [DecidableEq α] :
    DecidableEq (Except ε α)
  | Except.error e, Except.error f =>
    if h : e = f then isTrue (by rw [h])
    else isFalse (fun hc => h (Except.error.inj hc))
  | Except.error _, Except.ok _ => isFalse (fun hc => Except.noConfusion hc)
  | Except.ok _, Except.error _ => isFalse (fun hc => Except.noConfusion hc)
  | Except.ok a, Except.ok b =>
    if h : a = b then isTrue (by rw [h])
    else isFalse (fun hc => h (Except.ok.inj hc))

instance {ε α : Type} [DecidableEq ε] [DecidableEq α] : DecidableEq (Except ε α) :=
  exceptDecEq

theorem dictLookup_dictInsert_self {α : Type} (l : List (String × α)) (k : String) (v : α) :
    dictLookup (dictInsert l k v) k = some v := by
  induction l with
  | nil => simp [dictInsert, dictLookup]
  | cons kv rest ih =>
    obtain ⟨k', v'⟩ := kv
    by_cases h : k' = k
    · simp [dictInsert, dictLookup, h]
    · simp [dictInsert, dictLookup, h, ih]

theorem dictLookup_dictInsert_ne {α : Type} (l : List (String × α)) (k k' : String) (v : α)
    (h : k' ≠ k) : dictLookup (dictInsert l k v) k' = dictLookup l k' := by
  induction l with
  | nil => simp [dictInsert, dictLookup, Ne.symm h]
  | cons kv rest ih =>
    obtain ⟨k0, v0⟩ := kv
    by_cases h0 : k0 = k
    · subst h0
      simp [dictInsert, dictLookup, Ne.symm h]
    · simp only [dictInsert, if_neg h0, dictLookup]
      by_cases h1 : k0 = k'
      · simp [h1]
      · simp [h1, ih]

theorem isSome_dictLookup_dictInsert {α : Type} (l : List (String × α)) (k k' : String) (v : α)
    (h : (dictLookup l k).isSome) : (dictLookup (dictInsert l k' v) k).isSome := by
  by_cases hk : k = k'
  · subst hk
    simp [dictLookup_dictInsert_self]
  · rw [dictLookup_dictInsert_ne l k' k v hk]
    exact h

theorem mem_of_dictLookup {α : Type} (l : List (String × α)) (k : String) (v : α)
    (h : dictLookup l k = some v) : (k, v) ∈ l := by
  induction l with
  | nil => simp [dictLookup] at h
  | cons kv rest ih =>
    obtain ⟨k', v'⟩ := kv
    by_cases hk : k' = k
    · subst hk
      simp [dictLookup] at h
      simp [h]
    · simp only [dictLookup, if_neg hk] at h
      exact List.mem_cons_of_mem _ (ih h)

theorem dictLookup_of_mem_nodup {α : Type} (l : List (String × α)) (k : String) (v : α)
    (hnd : (l.map Prod.fst).Nodup) (h : (k, v) ∈ l) : dictLookup l k = some v := by
  induction l with
  | nil => simp at h
  | cons kv rest ih =>
    obtain ⟨k', v'⟩ := kv
    rw [List.map_cons, List.nodup_cons] at hnd
    rcases List.mem_cons.mp h with h1 | h1
    · injection h1 with hk hv
      subst hk
      subst hv
      simp [dictLookup]
    · have hmem : k ∈ rest.map Prod.fst := List.mem_map_of_mem Prod.fst h1
      have hk : k' ≠ k := by
        intro he
        subst he
        exact hnd.1 hmem
      simp only [dictLookup, if_neg hk]
      exact ih hnd.2 h1

/-! ## Concrete fixtures used by witnesses and counterexamples -/

/-- The empty filesystem: no profile files, no active-profile marker. -/
def fs0 : FS := ⟨[], none⟩

/-- Freshly constructed daemon state (`MonitorDaemon.__init__`). -/
def d0 : MonitorDaemon := ⟨[], DEFAULT_PROFILE, ∅⟩

/-- A well-formed enabled configuration. -/
def cfgStd : Config :=
  ⟨"DELL", "0,0", "1920x1080", 1, "normal", true⟩

/-- Like `cfgStd` but at a different position, to keep the two profile
entries of the precedence scenario distinguishable. -/
def cfgAlt : Config :=
  ⟨"DELL", "100,0", "1920x1080", 1, "normal", true⟩

/-- Projection used in statements: the config mapping stored for a profile
in the daemon state returned by an operation. -/
def savedConfigs (r : Except PyErr (MonitorDaemon × FS)) (profile : String) :
    List (String × Config) :=
  match r with
  | Except.ok (d, _) =>
    match dictLookup d.profiles profile with
    | some p => p.configs
    | none => []
  | Except.error _ => []

/-- Projection used in statements: reload a profile from the filesystem an
operation produced and look up one identifier in it. -/
def loadedConfig (r : Except PyErr (MonitorDaemon × FS)) (profile key : String) :
    Option Config :=
  match r with
  | Except.ok (_, fs) =>
    match MonitorProfile.load fs profile with
    | Except.ok p => dictLookup p.configs key
    | Except.error _ => none
  | Except.error _ => none

/-! ## C4: query failure modes of get_current_monitors -/

/-- C4 counterexample. The claim says every failing invocation of the
compositor query — including a zero exit status whose output is not
well-formed JSON — yields an empty sequence rather than an exception. On
exit-0 malformed output, however, `json.loads` raises
`json.JSONDecodeError` outside the `except subprocess.CalledProcessError`
clause, so `get_current_monitors` propagates the exception instead of
returning `[]`. -/
theorem get_current_monitors_malformed_raises :
    get_current_monitors (QueryOutcome.exitZero none) =
      Except.error PyErr.jsonDecodeError ∧
    get_current_monitors (QueryOutcome.exitZero none) ≠ Except.ok [] := by
  constructor
  · rfl
  · intro h
    simp [get_current_monitors] at h

/-- C4 amended: `get_current_monitors` returns the empty list only for a
non-zero exit status (`subprocess.CalledProcessError` is the only caught
exception); malformed JSON on a zero exit status raises
`json.JSONDecodeError` to the caller. -/
theorem get_current_monitors_failure_modes :
    get_current_monitors QueryOutcome.nonzeroExit = Except.ok [] ∧
    get_current_monitors (QueryOutcome.exitZero none) =
      Except.error PyErr.jsonDecodeError :=
  ⟨rfl, rfl⟩

/-! ## C3: profile loading with corrupt files -/

/-- A profiles directory holding one corrupt file and one good file. -/
def fsCorrupt : FS :=
  ⟨[("broken", FileData.malformed), ("office", FileData.parsed [("DELL", cfgStd)])], none⟩

/-- C3 counterexample. The claim says a profile file that fails to parse
is skipped and the successfully parsed profiles are still returned. In the
code, `MonitorProfile.load` calls `json.load` with no exception handling
and `load_profiles` does not guard the loop either, so one corrupt file
aborts the whole load with `json.JSONDecodeError` — no mapping (and no
`"default"` profile) is returned at all. -/
theorem load_profiles_corrupt_fatal :
    load_profiles fsCorrupt d0 = Except.error PyErr.jsonDecodeError := rfl

/-! ## C6: stale active-profile marker -/

/-- A profiles directory with no profile files but an `active_profile`
marker naming a profile that does not exist on disk. -/
def fsStaleMarker : FS := ⟨[], some "work"⟩

/-- A connected DELL output. -/
def mDell : Monitor :=
  ⟨"DP-1", some "DELL", some "ABC123", 0, 0, 1920, 1080, some 1, some "normal", some false⟩

/-- A world whose query reports exactly the DELL output and where every
apply command succeeds. -/
def envOneDell : Env := ⟨QueryOutcome.exitZero (some [mDell]), fun _ => true⟩

/-- C6: after startup in a reachable state where the active-profile marker
names `"work"` but no `work.json` was loaded, `find_best_config` raises
`KeyError` on the `self.profiles[self.active_profile_name]` lookup for
every output (it does not fall back to the default profile), and the whole
reconciliation cycle fails with that `KeyError`. -/
theorem active_profile_missing_keyerror :
    ∃ d', load_profiles fsStaleMarker d0 = Except.ok d' ∧
      d'.active_profile_name = "work" ∧
      dictLookup d'.profiles "work" = none ∧
      (∀ m : Monitor, find_best_config d' m = Except.error PyErr.keyError) ∧
      update_monitor_configs envOneDell d' = Except.error PyErr.keyError := by
  refine ⟨⟨[(DEFAULT_PROFILE, ⟨DEFAULT_PROFILE, []⟩)], "work", ∅⟩,
    ?_, rfl, rfl, fun m => rfl, ?_⟩
  · rfl
  · rfl

/-! ## C8: save/load round trip -/

/-- A connected LG output at position (0,0), resolution 1920x1080,
scale 1.0, transform normal, enabled. -/
def mLG : Monitor :=
  ⟨"eDP-1", some "LG", some "XYZ", 0, 0, 1920, 1080, some 1, some "normal", some false⟩

/-- A world whose query reports exactly the LG output. -/
def envOneLG : Env := ⟨QueryOutcome.exitZero (some [mLG]), fun _ => true⟩

/-- Daemon state right after a first startup: only the synthesized empty
default profile, which is active. -/
def dDefault : MonitorDaemon :=
  ⟨[(DEFAULT_PROFILE, ⟨DEFAULT_PROFILE, []⟩)], DEFAULT_PROFILE, ∅⟩

/-- C8: saving the current setup to profile `"home"` and then loading
profile `"home"` from the files that save wrote yields, under both the
bare-model and the model+serial identifiers, an OutputConfig equal
field-for-field to the one captured at save time: model `"LG"`, position
`"0,0"`, resolution `"1920x1080"`, scale 1, transform `"normal"`,
enabled `true`. -/
theorem save_load_roundtrip :
    loadedConfig (save_current_setup envOneLG fs0 dDefault (some "home")) "home" "LG" =
      some (captureConfig mLG "LG") ∧
    loadedConfig (save_current_setup envOneLG fs0 dDefault (some "home")) "home" "LG_XYZ" =
      some (captureConfig mLG "LG") ∧
    captureConfig mLG "LG" = ⟨"LG", "0,0", "1920x1080", 1, "normal", true⟩ :=
  ⟨rfl, rfl, rfl⟩

/-! ## C7: which identifiers save_current_setup records -/

/-- A connected DELL output that reports no serial. -/
def mNoSerial : Monitor :=
  ⟨"DP-3", some "DELL", none, 0, 0, 1920, 1080, some 1, some "normal", some false⟩

/-- A world whose query reports exactly the serial-less DELL output. -/
def envNoSerial : Env := ⟨QueryOutcome.exitZero (some [mNoSerial]), fun _ => true⟩

/-- C7 counterexample. The claim says every output with a non-empty model
is recorded under both the bare-model identifier and the model+serial
identifier. For an output whose serial is absent, the
`if monitor.get('serial'):` guard skips the second insertion: the saved
profile holds exactly one entry, under the bare model key, and the
model+serial identifier the matcher would later build (`"DELL_"`) is not
present. -/
theorem save_missing_serial_key :
    mNoSerial.model.getD "" = "DELL" ∧
    savedConfigs (save_current_setup envNoSerial fs0 dDefault none) DEFAULT_PROFILE =
      [("DELL", captureConfig mNoSerial "DELL")] ∧
    dictLookup (savedConfigs (save_current_setup envNoSerial fs0 dDefault none) DEFAULT_PROFILE)
      ("DELL" ++ "_" ++ "") = none :=
  ⟨rfl, rfl, rfl⟩

/-! ## C9: the profile save is not an atomic replace -/

/-- A profile about to be saved over an existing file. -/
def pSample : MonitorProfile := ⟨DEFAULT_PROFILE, [("DELL", cfgStd)]⟩

/-- C9 counterexample. The claim says a concurrent reader of the profile
file never observes a half-written file. `MonitorProfile.save` opens the
destination with mode `'w'` — truncating it in place — and only then
streams the JSON into it, with no temp-file-plus-rename: between the
truncation and the completed write a reader observes contents that are
neither the old file nor the new one. -/
theorem save_not_atomic :
    ¬ ∀ s ∈ save_observable (FileData.parsed []) pSample,
        s = FileData.parsed [] ∨ s = FileData.parsed pSample.configs := by
  intro h
  have hm := h FileData.malformed
    (by simp [save_observable, contentsDuring, save_write_steps, stepContent])
  rcases hm with h1 | h1 <;> exact FileData.noConfusion h1

/-- C9 amended: `MonitorProfile.save` writes the profile file in place
(truncate on open, then write), so whenever the old contents are a valid
profile file, a concurrent reader can observe an intermediate state that
is neither the old contents nor any valid (parsed) profile file. -/
theorem save_inplace_write (old : FileData) (p : MonitorProfile)
    (h : old ≠ FileData.malformed) :
    ∃ s ∈ save_observable old p,
      s ≠ old ∧ ∀ cfgs, s ≠ FileData.parsed cfgs := by
  refine ⟨FileData.malformed, ?_, Ne.symm h, ?_⟩
  · simp [save_observable, contentsDuring, save_write_steps, stepContent]
  · intro cfgs hc
    exact FileData.noConfusion hc

/-- Witness for the amended C9 statement at a concrete old file and
profile. -/
theorem save_inplace_write_wit :
    ∃ s ∈ save_observable (FileData.parsed []) pSample,
      s ≠ FileData.parsed [] ∧ ∀ cfgs, s ≠ FileData.parsed cfgs :=
  save_inplace_write (FileData.parsed []) pSample (fun hc => FileData.noConfusion hc)

/-! ## C1: matching precedence of find_best_config -/

/-- The profiles other than the entry the active-profile lookup hits. -/
def profilesOtherThanActive (d : MonitorDaemon) : List MonitorProfile :=
  (d.profiles.filter (fun kv => kv.1 != d.active_profile_name)).map Prod.snd

/-- The matcher as the spec words it: within the active profile try the
three identifiers in order, and only if none of those match consult the
other profiles, each with the same three identifiers in order. -/
def findBestConfigClaim (active : MonitorProfile) (others : List MonitorProfile)
    (m : Monitor) : Option Config :=
  match tryIdentifiers active (identifiers m) with
  | some c => some c
  | none => profilesSearch (identifiers m) others

theorem filter_keys_ne_eq_self {α : Type} (l : List (String × α)) (a : String)
    (h : a ∉ l.map Prod.fst) : l.filter (fun kv => kv.1 != a) = l := by
  rw [List.filter_eq_self]
  intro kv hkv
  have : kv.1 ≠ a := by
    intro he
    exact h (he ▸ List.mem_map_of_mem Prod.fst hkv)
  simpa using this

theorem profilesSearch_skip_none (ids : List String) (l : List (String × MonitorProfile))
    (a : String) (act : MonitorProfile)
    (hnd : (l.map Prod.fst).Nodup) (hl : dictLookup l a = some act)
    (hf : tryIdentifiers act ids = none) :
    profilesSearch ids (l.map Prod.snd) =
      profilesSearch ids ((l.filter (fun kv => kv.1 != a)).map Prod.snd) := by
  induction l with
  | nil => simp [dictLookup] at hl
  | cons kv rest ih =>
    obtain ⟨k, v⟩ := kv
    rw [List.map_cons, List.nodup_cons] at hnd
    by_cases hk : k = a
    · subst hk
      simp only [dictLookup, if_pos] at hl
      injection hl with hl
      subst hl
      have hfilter : rest.filter (fun kv => kv.1 != k) = rest :=
        filter_keys_ne_eq_self rest k hnd.1
      simp [profilesSearch, hf, List.filter_cons, hfilter]
    · simp only [dictLookup, if_neg hk] at hl
      have hrec := ih hnd.2 hl
      simp only [List.map_cons, List.filter_cons]
      have : (k != a) = true := by simpa using hk
      simp only [this, if_pos]
      simp only [List.map_cons, profilesSearch]
      cases htry : tryIdentifiers v ids with
      | some c => rfl
      | none => exact hrec

/-- C1: whenever the active profile name is present among the loaded
profiles (and, as Python dicts guarantee, profile names are unique),
`find_best_config` returns exactly what the spec's matcher prescribes:
the first hit among the identifiers model_serial, model, name inside the
active profile, and only when none of those hits does it fall through to
the other profiles, each tried with the same three identifiers in
order. -/
theorem find_best_config_precedence (d : MonitorDaemon) (m : Monitor)
    (act : MonitorProfile)
    (hnd : (d.profiles.map Prod.fst).Nodup)
    (ha : dictLookup d.profiles d.active_profile_name = some act) :
    find_best_config d m =
      Except.ok (findBestConfigClaim act (profilesOtherThanActive d) m) := by
  have h1 : find_best_config d m =
      match tryIdentifiers act (identifiers m) with
      | some c => Except.ok (some c)
      | none =>
        Except.ok (profilesSearch (identifiers m) (d.profiles.map Prod.snd)) := by
    unfold find_best_config
    rw [ha]
  rw [h1]
  unfold findBestConfigClaim profilesOtherThanActive
  cases htry : tryIdentifiers act (identifiers m) with
  | some c => rfl
  | none =>
    rw [profilesSearch_skip_none (identifiers m) d.profiles d.active_profile_name act hnd ha htry]

/-- The active profile of the precedence scenario: holds the output's
model+serial identifier. -/
def pWork : MonitorProfile := ⟨"work", [("DELL_ABC123", cfgStd)]⟩

/-- A non-active profile holding the same output's bare-model
identifier. -/
def pOffice : MonitorProfile := ⟨"office", [("DELL", cfgAlt)]⟩

/-- Daemon state for the precedence scenario: active profile `"work"`
with key `"DELL_ABC123"`, other profile `"office"` with key `"DELL"`. -/
def dPrecedence : MonitorDaemon :=
  ⟨[("work", pWork), ("office", pOffice)], "work", ∅⟩

/-- Witness for C1: for the output with model DELL, serial ABC123 the
matcher resolves to the active profile's `"DELL_ABC123"` entry even though
the office profile has a `"DELL"` entry. -/
theorem find_best_config_precedence_wit :
    (dPrecedence.profiles.map Prod.fst).Nodup ∧
    dictLookup dPrecedence.profiles dPrecedence.active_profile_name = some pWork ∧
    find_best_config dPrecedence mDell =
      Except.ok (findBestConfigClaim pWork (profilesOtherThanActive dPrecedence) mDell) ∧
    findBestConfigClaim pWork (profilesOtherThanActive dPrecedence) mDell = some cfgStd :=
  ⟨by decide, rfl,
    find_best_config_precedence dPrecedence mDell pWork (by decide) rfl, rfl⟩

/-! ## Reconciliation-cycle lemmas shared by C2 and C10 -/

theorem update_eq (env : Env) (d : MonitorDaemon) (ms : List Monitor)
    (hq : get_current_monitors env.query = Except.ok ms) :
    update_monitor_configs env d =
      if outputNameSet ms = d.current_monitors then Except.ok (d, [])
      else
        match applyLoop env d ms with
        | Except.error e => Except.error e
        | Except.ok calls =>
          Except.ok ({ d with current_monitors := outputNameSet ms }, calls) := by
  unfold update_monitor_configs
  rw [hq]

theorem update_err (env : Env) (d : MonitorDaemon) (e : PyErr)
    (hq : get_current_monitors env.query = Except.error e) :
    update_monitor_configs env d = Except.error e := by
  unfold update_monitor_configs
  rw [hq]

theorem update_skip (env : Env) (d : MonitorDaemon) (ms : List Monitor)
    (hq : get_current_monitors env.query = Except.ok ms)
    (hset : outputNameSet ms = d.current_monitors) :
    update_monitor_configs env d = Except.ok (d, []) := by
  rw [update_eq env d ms hq, if_pos hset]

theorem update_ok_state (env : Env) (d d' : MonitorDaemon)
    (calls : List (String × Bool)) (ms : List Monitor)
    (hq : get_current_monitors env.query = Except.ok ms)
    (hrun : update_monitor_configs env d = Except.ok (d', calls)) :
    d'.current_monitors = outputNameSet ms := by
  rw [update_eq env d ms hq] at hrun
  by_cases hset : outputNameSet ms = d.current_monitors
  · rw [if_pos hset] at hrun
    injection hrun with h1
    injection h1 with hd _
    rw [← hd]
    exact hset.symm
  · rw [if_neg hset] at hrun
    cases happ : applyLoop env d ms with
    | error e =>
      rw [happ] at hrun
      exact Except.noConfusion hrun
    | ok calls2 =>
      rw [happ] at hrun
      injection hrun with h1
      injection h1 with hd _
      rw [← hd]

/-! ## C2: idempotence of the reconciliation cycle -/

/-- C2: if the queried name-set equals the stored one, the cycle performs
zero applyConfig invocations and leaves the state unchanged; and after any
completed cycle, running the cycle again (same query outcome) performs
zero applyConfig invocations and leaves the state unchanged. -/
theorem update_idempotent (env : Env) (d : MonitorDaemon) :
    (∀ ms, get_current_monitors env.query = Except.ok ms →
      outputNameSet ms = d.current_monitors →
      update_monitor_configs env d = Except.ok (d, [])) ∧
    (∀ d' calls, update_monitor_configs env d = Except.ok (d', calls) →
      update_monitor_configs env d' = Except.ok (d', [])) := by
  constructor
  · intro ms hq hset
    exact update_skip env d ms hq hset
  · intro d' calls hrun
    cases hquery : get_current_monitors env.query with
    | error e =>
      rw [update_err env d e hquery] at hrun
      exact Except.noConfusion hrun
    | ok ms =>
      exact update_skip env d' ms hquery
        (update_ok_state env d d' calls ms hquery hrun).symm

/-- Profile matching the LG output by its name identifier. -/
def pByName : MonitorProfile := ⟨DEFAULT_PROFILE, [("eDP-1", cfgStd)]⟩

/-- Daemon state holding only that profile, with an empty live set. -/
def dByName : MonitorDaemon := ⟨[(DEFAULT_PROFILE, pByName)], DEFAULT_PROFILE, ∅⟩

/-- World reporting exactly the LG output, every apply succeeding. -/
def envByName : Env := ⟨QueryOutcome.exitZero (some [mLG]), fun _ => true⟩

/-- The state after the first reconciliation cycle of the C2 scenario. -/
def dByNameAfter : MonitorDaemon :=
  ⟨[(DEFAULT_PROFILE, pByName)], DEFAULT_PROFILE, outputNameSet [mLG]⟩

/-- Witness for C2: a first cycle applies one config; re-running the cycle
with the unchanged output set applies nothing and keeps the state. -/
theorem update_idempotent_wit :
    update_monitor_configs envByName dByName =
      Except.ok (dByNameAfter, [("eDP-1", true)]) ∧
    update_monitor_configs envByName dByNameAfter =
      Except.ok (dByNameAfter, []) := by
  constructor
  · rfl
  · exact (update_idempotent envByName dByName).2 dByNameAfter [("eDP-1", true)] (by rfl)

/-! ## C10: the live output set is replaced unconditionally -/

/-- C10: after any completed reconciliation cycle, the stored live set
equals the queried name-set — with no condition on which applies failed or
which outputs matched nothing — so a later trigger with the same topology
performs zero applyConfig invocations. -/
theorem live_set_updated_unconditionally (env : Env) (d d' : MonitorDaemon)
    (calls : List (String × Bool)) (ms : List Monitor)
    (hq : get_current_monitors env.query = Except.ok ms)
    (hrun : update_monitor_configs env d = Except.ok (d', calls)) :
    d'.current_monitors = outputNameSet ms ∧
    update_monitor_configs env d' = Except.ok (d', []) := by
  have hcur := update_ok_state env d d' calls ms hq hrun
  exact ⟨hcur, update_skip env d' ms hq hcur.symm⟩

/-- An output matched by the bare-model key of the default profile. -/
def mAAA : Monitor :=
  ⟨"DP-1", some "AAA", none, 0, 0, 1920, 1080, some 1, some "normal", some false⟩

/-- An output matching no profile entry at all. -/
def mBBB : Monitor :=
  ⟨"DP-2", some "BBB", none, 0, 0, 1280, 1024, some 1, some "normal", some false⟩

/-- Profile matching only the AAA output. -/
def pAAA : MonitorProfile := ⟨DEFAULT_PROFILE, [("AAA", cfgStd)]⟩

/-- Daemon state for the C10 scenario, empty live set. -/
def dAAA : MonitorDaemon := ⟨[(DEFAULT_PROFILE, pAAA)], DEFAULT_PROFILE, ∅⟩

/-- World reporting both outputs, where every apply command fails
(non-zero exit). -/
def envAllFail : Env := ⟨QueryOutcome.exitZero (some [mAAA, mBBB]), fun _ => false⟩

/-- The state after the first cycle of the C10 scenario. -/
def dAAAAfter : MonitorDaemon :=
  ⟨[(DEFAULT_PROFILE, pAAA)], DEFAULT_PROFILE, outputNameSet [mAAA, mBBB]⟩

/-- Witness for C10: the first cycle has a failed apply (DP-1) and an
unmatched output (DP-2), yet the live set is replaced by the new name-set
and a re-run applies nothing. -/
theorem live_set_updated_unconditionally_wit :
    update_monitor_configs envAllFail dAAA =
      Except.ok (dAAAAfter, [("DP-1", false)]) ∧
    dAAAAfter.current_monitors = outputNameSet [mAAA, mBBB] ∧
    update_monitor_configs envAllFail dAAAAfter = Except.ok (dAAAAfter, []) := by
  have h := live_set_updated_unconditionally envAllFail dAAA dAAAAfter
    [("DP-1", false)] [mAAA, mBBB] rfl rfl
  exact ⟨rfl, h.1, h.2⟩

/-! ## C5: per-output failure independence of the apply loop -/

/-- A stored config on which `apply_monitor_config` raises no exception:
when enabled, its resolution and position strings split into exactly two
parts. -/
def wfConfig (c : Config) : Prop :=
  c.enabled = true →
    (pySplit c.resolution 'x').length = 2 ∧ (pySplit c.position ',').length = 2

instance (c : Config) : Decidable (wfConfig c) := by
  unfold wfConfig
  infer_instance

/-- Whether the apply command for this monitor and config exits zero. -/
def applySuccess (env : Env) (m : Monitor) (c : Config) : Bool :=
  env.applyOk (buildCmd m c)

theorem apply_monitor_config_wf (env : Env) (m : Monitor) (c : Config)
    (h : wfConfig c) :
    apply_monitor_config env m c = Except.ok (applySuccess env m c) := by
  unfold apply_monitor_config applySuccess buildCmd
  by_cases he : c.enabled = true
  · obtain ⟨hr, hp⟩ := h he
    rcases List.length_eq_two.mp hr with ⟨w, h2, heqr⟩
    rcases List.length_eq_two.mp hp with ⟨x, y2, heqp⟩
    rw [if_pos he, if_pos he, heqr, heqp]
    rfl
  · rw [if_neg he, if_neg he]

theorem applyLoop_eq (env : Env) (d : MonitorDaemon) (ms : List Monitor)
    (F : Monitor → Option Config)
    (hf : ∀ m ∈ ms, find_best_config d m = Except.ok (F m))
    (hwf : ∀ m ∈ ms, ∀ c, F m = some c → wfConfig c) :
    applyLoop env d ms =
      Except.ok (ms.filterMap
        (fun m => (F m).map (fun c => (m.name, applySuccess env m c)))) := by
  induction ms with
  | nil => rfl
  | cons m rest ih =>
    have hfm := hf m (List.mem_cons_self m rest)
    have ihr := ih (fun m' hm' => hf m' (List.mem_cons_of_mem m hm'))
      (fun m' hm' => hwf m' (List.mem_cons_of_mem m hm'))
    cases hFm : F m with
    | none =>
      rw [hFm] at hfm
      unfold applyLoop
      rw [hfm, ihr]
      simp [List.filterMap_cons, hFm]
    | some c =>
      rw [hFm] at hfm
      have hwfc := hwf m (List.mem_cons_self m rest) c hFm
      have happ := apply_monitor_config_wf env m c hwfc
      unfold applyLoop
      simp only [hfm, happ, ihr]
      simp [List.filterMap_cons, hFm]

/-- C5: when every connected output's match is exception-free (the active
profile lookup succeeds, matched configs are well-formed), a changed
topology makes the cycle complete with exactly one applyConfig invocation
per matched output, in order — each invocation's success flag is that
output's own command outcome, so a failed apply (non-zero exit, recorded
as false) never removes or aborts the invocations for the remaining
outputs. -/
theorem apply_partial_failure (env : Env) (d : MonitorDaemon) (ms : List Monitor)
    (F : Monitor → Option Config)
    (hq : get_current_monitors env.query = Except.ok ms)
    (hchange : outputNameSet ms ≠ d.current_monitors)
    (hf : ∀ m ∈ ms, find_best_config d m = Except.ok (F m))
    (hwf : ∀ m ∈ ms, ∀ c, F m = some c → wfConfig c) :
    update_monitor_configs env d =
      Except.ok ({ d with current_monitors := outputNameSet ms },
        ms.filterMap (fun m => (F m).map (fun c => (m.name, applySuccess env m c)))) := by
  rw [update_eq env d ms hq, if_neg hchange, applyLoop_eq env d ms F hf hwf]

/-- A second matched output, distinct from the AAA one. -/
def mCCC : Monitor :=
  ⟨"DP-5", some "CCC", none, 0, 0, 1920, 1080, some 1, some "normal", some false⟩

/-- Profile matching both outputs by bare model. -/
def pBoth : MonitorProfile :=
  ⟨DEFAULT_PROFILE, [("AAA", cfgStd), ("CCC", cfgStd)]⟩

/-- Daemon state for the partial-failure scenario. -/
def dBoth : MonitorDaemon := ⟨[(DEFAULT_PROFILE, pBoth)], DEFAULT_PROFILE, ∅⟩

/-- World reporting both outputs where exactly the apply command for
output DP-1 exits non-zero. -/
def envPartial : Env :=
  ⟨QueryOutcome.exitZero (some [mAAA, mCCC]),
    fun cmd =>
      match cmd.get? 2 with
      | some n => n != "DP-1"
      | none => true⟩

/-- The state after the partial-failure cycle. -/
def dBothAfter : MonitorDaemon :=
  ⟨[(DEFAULT_PROFILE, pBoth)], DEFAULT_PROFILE, outputNameSet [mAAA, mCCC]⟩

/-- Witness for C5: DP-1's apply fails (recorded false), DP-5's apply is
still invoked and succeeds, and the cycle completes. -/
theorem apply_partial_failure_wit :
    update_monitor_configs envPartial dBoth =
      Except.ok (dBothAfter, [("DP-1", false), ("DP-5", true)]) := by
  have h := apply_partial_failure envPartial dBoth [mAAA, mCCC]
    (fun _ => some cfgStd) rfl (by decide) (by decide)
    (fun m hm c hc => by
      injection hc with h2
      rw [← h2]
      decide)
  exact h.trans (by rfl)

/-! ## C3 amended: loading when every file parses -/

theorem loadLoop_ok (fs : FS) :
    ∀ (stems : List String) (acc : List (String × MonitorProfile)),
    stems.Nodup →
    (∀ s ∈ stems, dictLookup fs.profileFiles s ≠ some FileData.malformed) →
    ∃ acc', loadLoop fs stems acc = Except.ok acc' ∧
      (∀ s ∈ stems, ∀ p, MonitorProfile.load fs s = Except.ok p →
        dictLookup acc' s = some p) ∧
      (∀ k, k ∉ stems → dictLookup acc' k = dictLookup acc k) := by
  intro stems
  induction stems with
  | nil =>
    intro acc _ _
    exact ⟨acc, rfl, by simp, fun k _ => rfl⟩
  | cons s rest ih =>
    intro acc hnd hok
    have hs := hok s (List.mem_cons_self s rest)
    rw [List.nodup_cons] at hnd
    cases hload : MonitorProfile.load fs s with
    | error e =>
      exfalso
      unfold MonitorProfile.load at hload
      cases hfm : dictLookup fs.profileFiles s with
      | none =>
        rw [hfm] at hload
        exact Except.noConfusion hload
      | some fd =>
        cases fd with
        | malformed => exact hs hfm
        | parsed cfgs =>
          rw [hfm] at hload
          exact Except.noConfusion hload
    | ok p =>
      obtain ⟨acc', hrun, hmem, hpres⟩ := ih (dictInsert acc s p) hnd.2
        (fun s' hs' => hok s' (List.mem_cons_of_mem s hs'))
      refine ⟨acc', ?_, ?_, ?_⟩
      · unfold loadLoop
        rw [hload]
        exact hrun
      · intro s' hs' p' hp'
        rcases List.mem_cons.mp hs' with h1 | h1
        · subst h1
          rw [hload] at hp'
          injection hp' with hp2
          subst hp2
          rw [hpres s' hnd.1, dictLookup_dictInsert_self]
        · exact hmem s' h1 p' hp'
      · intro k hk
        have hk1 : k ≠ s := by
          intro he
          subst he
          exact hk (List.mem_cons_self k rest)
        have hk2 : k ∉ rest := fun hm => hk (List.mem_cons_of_mem s hm)
        rw [hpres k hk2, dictLookup_dictInsert_ne acc s k p hk1]

/-- C3 amended: when every file in the profiles directory parses (and the
stems are distinct, as directory entries are), `load_profiles` succeeds,
the returned mapping contains every parsed profile under its stem, and a
`"default"` profile is always present, synthesized empty if absent on
disk. A file that fails to parse, however, aborts the whole load with a
`json.JSONDecodeError` instead of being skipped (see the
counterexample). -/
theorem load_profiles_parsed_ok (fs : FS) (d : MonitorDaemon)
    (hok : ∀ kv ∈ fs.profileFiles, kv.2 ≠ FileData.malformed)
    (hnd : (fs.profileFiles.map Prod.fst).Nodup) :
    ∃ d', load_profiles fs d = Except.ok d' ∧
      (dictLookup d'.profiles DEFAULT_PROFILE).isSome ∧
      ∀ stem cfgs, (stem, FileData.parsed cfgs) ∈ fs.profileFiles →
        dictLookup d'.profiles stem = some ⟨stem, cfgs⟩ := by
  have hok2 : ∀ s ∈ fs.profileFiles.map Prod.fst,
      dictLookup fs.profileFiles s ≠ some FileData.malformed := by
    intro s _ hc
    exact hok (s, FileData.malformed) (mem_of_dictLookup _ s _ hc) rfl
  obtain ⟨acc', hrun, hmem, _⟩ :=
    loadLoop_ok fs (fs.profileFiles.map Prod.fst) d.profiles hnd hok2
  have hstem : ∀ stem cfgs, (stem, FileData.parsed cfgs) ∈ fs.profileFiles →
      dictLookup acc' stem = some ⟨stem, cfgs⟩ := by
    intro stem cfgs hm2
    have hsm : stem ∈ fs.profileFiles.map Prod.fst :=
      List.mem_map_of_mem Prod.fst hm2
    have hload : MonitorProfile.load fs stem = Except.ok ⟨stem, cfgs⟩ := by
      unfold MonitorProfile.load
      rw [dictLookup_of_mem_nodup fs.profileFiles stem (FileData.parsed cfgs) hnd hm2]
    exact hmem stem hsm ⟨stem, cfgs⟩ hload
  have hload_eq : load_profiles fs d = Except.ok { d with
      profiles :=
        if (dictLookup acc' DEFAULT_PROFILE).isSome then acc'
        else dictInsert acc' DEFAULT_PROFILE ⟨DEFAULT_PROFILE, []⟩,
      active_profile_name :=
        match fs.activeProfileFile with
        | some s => pyStrip s
        | none => d.active_profile_name } := by
    unfold load_profiles
    rw [hrun]
  refine ⟨_, hload_eq, ?_, ?_⟩
  · by_cases hdef : (dictLookup acc' DEFAULT_PROFILE).isSome
    · simpa [if_pos hdef] using hdef
    · simp only [if_neg hdef, dictLookup_dictInsert_self, Option.isSome_some]
  · intro stem cfgs hm2
    have h1 := hstem stem cfgs hm2
    by_cases hdef : (dictLookup acc' DEFAULT_PROFILE).isSome
    · simpa [if_pos hdef] using h1
    · by_cases hsd : stem = DEFAULT_PROFILE
      · exfalso
        apply hdef
        rw [hsd] at h1
        rw [h1]
        rfl
      · simp only [if_neg hdef]
        rw [dictLookup_dictInsert_ne acc' DEFAULT_PROFILE stem _ (fun he => hsd he)]
        exact h1

/-- Two well-formed profile files on disk, one of them the default. -/
def fsTwoGood : FS :=
  ⟨[("default", FileData.parsed [("DELL", cfgStd)]),
    ("office", FileData.parsed [("LG", cfgAlt)])], none⟩

/-- Witness for the amended C3 statement on a concrete directory of two
parseable profile files. -/
theorem load_profiles_parsed_ok_wit :
    ∃ d', load_profiles fsTwoGood d0 = Except.ok d' ∧
      (dictLookup d'.profiles DEFAULT_PROFILE).isSome ∧
      ∀ stem cfgs, (stem, FileData.parsed cfgs) ∈ fsTwoGood.profileFiles →
        dictLookup d'.profiles stem = some ⟨stem, cfgs⟩ :=
  load_profiles_parsed_ok fsTwoGood d0 (by decide) (by decide)

/-! ## C7 amended: which identifiers save_current_setup records -/

theorem serialInsert_preserves (cfgs : List (String × Config)) (m : Monitor)
    (c : Config) (k : String) (h : (dictLookup cfgs k).isSome) :
    (dictLookup (serialInsert cfgs m c) k).isSome := by
  cases hms : m.serial with
  | none => simpa [serialInsert, hms] using h
  | some s =>
    by_cases hs : s = ""
    · simpa [serialInsert, hms, hs] using h
    · simp only [serialInsert, hms]
      rw [if_neg hs]
      exact isSome_dictLookup_dictInsert cfgs k _ c h

theorem saveLoop_preserves (ms : List Monitor) :
    ∀ (cfgs : List (String × Config)) (k : String),
    (dictLookup cfgs k).isSome → (dictLookup (saveLoop cfgs ms) k).isSome := by
  induction ms with
  | nil =>
    intro cfgs k h
    exact h
  | cons m rest ih =>
    intro cfgs k h
    unfold saveLoop
    by_cases hm : m.model.getD "" = ""
    · rw [if_pos hm]
      exact ih cfgs k h
    · rw [if_neg hm]
      exact ih _ k (serialInsert_preserves _ m _ k
        (isSome_dictLookup_dictInsert cfgs k _ _ h))

theorem saveLoop_records (ms : List Monitor) :
    ∀ (cfgs : List (String × Config)), ∀ m ∈ ms, m.model.getD "" ≠ "" →
    (dictLookup (saveLoop cfgs ms) (m.model.getD "")).isSome ∧
    ∀ s, m.serial = some s → s ≠ "" →
      (dictLookup (saveLoop cfgs ms) (m.model.getD "" ++ "_" ++ s)).isSome := by
  induction ms with
  | nil =>
    intro cfgs m hm
    simp at hm
  | cons m0 rest ih =>
    intro cfgs m hm hmodel
    rcases List.mem_cons.mp hm with h1 | h1
    · subst h1
      unfold saveLoop
      rw [if_neg hmodel]
      constructor
      · apply saveLoop_preserves
        apply serialInsert_preserves
        rw [dictLookup_dictInsert_self]
        rfl
      · intro s hs hsne
        apply saveLoop_preserves
        simp only [serialInsert, hs]
        rw [if_neg hsne, dictLookup_dictInsert_self]
        rfl
    · unfold saveLoop
      by_cases hm0 : m0.model.getD "" = ""
      · rw [if_pos hm0]
        exact ih cfgs m h1 hmodel
      · rw [if_neg hm0]
        exact ih _ m h1 hmodel

theorem saveLoop_skip (ms : List Monitor) :
    ∀ (cfgs : List (String × Config)),
    (∀ m ∈ ms, m.model.getD "" = "") → saveLoop cfgs ms = cfgs := by
  induction ms with
  | nil =>
    intro cfgs _
    rfl
  | cons m rest ih =>
    intro cfgs h
    unfold saveLoop
    rw [if_pos (h m (List.mem_cons_self m rest))]
    exact ih cfgs (fun m' hm' => h m' (List.mem_cons_of_mem m hm'))

/-- C7 amended: when the query succeeds (and, as the daemon's own
operations guarantee, every loaded profile is stored under its own name),
`save_current_setup` succeeds and stores, in the active profile (after the
optional switch), every queried output with a non-empty model under its
bare-model identifier — and under the model+serial identifier only when
the serial is present and non-empty, not unconditionally as the claim
states — skips outputs with an empty model (an all-empty-model query
leaves the mapping untouched), and persists both the profile file and the
active-profile marker. -/
theorem save_records_keys (env : Env) (fs : FS) (d : MonitorDaemon)
    (pn : Option String) (ms : List Monitor)
    (hq : get_current_monitors env.query = Except.ok ms)
    (hinv : ∀ k q, dictLookup d.profiles k = some q → q.name = k) :
    ∃ d' fs' p, save_current_setup env fs d pn = Except.ok (d', fs') ∧
      p.name = (switchProfile d pn).active_profile_name ∧
      dictLookup d'.profiles (switchProfile d pn).active_profile_name = some p ∧
      (∀ m ∈ ms, m.model.getD "" ≠ "" →
        (dictLookup p.configs (m.model.getD "")).isSome ∧
        ∀ s, m.serial = some s → s ≠ "" →
          (dictLookup p.configs (m.model.getD "" ++ "_" ++ s)).isSome) ∧
      dictLookup fs'.profileFiles p.name = some (FileData.parsed p.configs) ∧
      fs'.activeProfileFile = some (switchProfile d pn).active_profile_name ∧
      (∀ cfgs ms2, (∀ m ∈ ms2, m.model.getD "" = "") → saveLoop cfgs ms2 = cfgs) := by
  have hprof : (switchProfile d pn).profiles = d.profiles := by
    cases pn with
    | none => rfl
    | some n =>
      by_cases hn : n = ""
      · simp [switchProfile, hn]
      · simp [switchProfile, hn]
  have hsave : save_current_setup env fs d pn = Except.ok
      ({ switchProfile d pn with
          profiles := dictInsert (switchProfile d pn).profiles
            (switchProfile d pn).active_profile_name
            { activeOrFresh (switchProfile d pn) with
              configs := saveLoop (activeOrFresh (switchProfile d pn)).configs ms } },
        save_active_profile
          (MonitorProfile.save fs
            { activeOrFresh (switchProfile d pn) with
              configs := saveLoop (activeOrFresh (switchProfile d pn)).configs ms })
          { switchProfile d pn with
            profiles := dictInsert (switchProfile d pn).profiles
              (switchProfile d pn).active_profile_name
              { activeOrFresh (switchProfile d pn) with
                configs := saveLoop (activeOrFresh (switchProfile d pn)).configs ms } }) := by
    unfold save_current_setup
    rw [hq]
  have hpname : (activeOrFresh (switchProfile d pn)).name =
      (switchProfile d pn).active_profile_name := by
    unfold activeOrFresh
    cases hl : dictLookup (switchProfile d pn).profiles
        (switchProfile d pn).active_profile_name with
    | none => rfl
    | some q =>
      exact hinv (switchProfile d pn).active_profile_name q (hprof ▸ hl)
  refine ⟨_, _,
    { activeOrFresh (switchProfile d pn) with
      configs := saveLoop (activeOrFresh (switchProfile d pn)).configs ms },
    hsave, hpname, ?_, ?_, ?_, rfl, fun cfgs ms2 h => saveLoop_skip ms2 cfgs h⟩
  · exact dictLookup_dictInsert_self _ _ _
  · intro m hm hmodel
    exact saveLoop_records ms (activeOrFresh (switchProfile d pn)).configs m hm hmodel
  · exact dictLookup_dictInsert_self _ _ _

/-- Under a singleton profile mapping whose entry is stored under its own
name, the name-consistency invariant holds. -/
theorem singleton_profiles_inv (name : String) (cfgs : List (String × Config)) :
    ∀ k q, dictLookup [(name, MonitorProfile.mk name cfgs)] k = some q →
      q.name = k := by
  intro k q h
  simp only [dictLookup] at h
  by_cases hk : name = k
  · rw [if_pos hk] at h
    injection h with h2
    rw [← h2]
    exact hk
  · rw [if_neg hk] at h
    exact Option.noConfusion h

/-- Witness for the amended C7 statement: the DELL output (with serial
ABC123) saved into the default profile. -/
theorem save_records_keys_wit :
    ∃ d' fs' p, save_current_setup envOneDell fs0 dDefault none = Except.ok (d', fs') ∧
      p.name = (switchProfile dDefault none).active_profile_name ∧
      dictLookup d'.profiles (switchProfile dDefault none).active_profile_name = some p ∧
      (∀ m ∈ [mDell], m.model.getD "" ≠ "" →
        (dictLookup p.configs (m.model.getD "")).isSome ∧
        ∀ s, m.serial = some s → s ≠ "" →
          (dictLookup p.configs (m.model.getD "" ++ "_" ++ s)).isSome) ∧
      dictLookup fs'.profileFiles p.name = some (FileData.parsed p.configs) ∧
      fs'.activeProfileFile = some (switchProfile dDefault none).active_profile_name ∧
      (∀ cfgs ms2, (∀ m ∈ ms2, m.model.getD "" = "") → saveLoop cfgs ms2 = cfgs) :=
  save_records_keys envOneDell fs0 dDefault none [mDell] rfl
    (singleton_profiles_inv DEFAULT_PROFILE [])
